import Mathlib

/-!
Verification of the DGP model core in
src/elfidev/elfi/methods/bo/iwvi/models.py (classes DGP_VI and DGP_IWVI).

Shallow embedding choices:
* tensors are nested lists over a linear ordered field `α` (rank 2 = `Mat`,
  rank 3 = `T3`, rank 4 = `T4`); TensorFlow reductions, tilings, reshapes and
  transposes are translated as list operations;
* a stochastic layer (external to models.py: it comes from
  elfi.methods.bo.iwvi.layers) is an abstract `propagate` function together
  with a static regularizer-type tag, exactly the capability models.py uses;
  because Python layers are rank-polymorphic while Lean functions are typed,
  a single Python layer corresponds to several typed views (`Layer2`,
  `Layer3d`, `Layer3`), one per tensor rank / covariance shape at which
  models.py invokes it;
* the likelihood is an abstract function parameter, as in the source;
* `tf.reduce_logsumexp` is embedded with its documented max-subtraction
  stabilization, with `exp`/`log` passed as explicit function parameters so
  that the definitions stay executable; theorems instantiate them with
  `Real.exp`/`Real.log`.
-/

/-- Rank-2 tensor (a matrix): a list of rows. -/
abbrev Mat (α : Type) := List (List α)

/-- Rank-3 tensor. -/
abbrev T3 (α : Type) := List (Mat α)

/-- Rank-4 tensor. -/
abbrev T4 (α : Type) := List (T3 α)

/-- RegularizerType from elfi.methods.bo.iwvi.layers: each layer statically
declares whether its regularizer is per-data-point (LOCAL) or
data-independent (GLOBAL). -/
inductive RegularizerType
  | LOCAL
  | GLOBAL
  deriving DecidableEq, Repr

/-- A stochastic layer, as consumed by models.py: `prop` takes the input
sample, the `full_cov` flag, the optional `inference_amorization_inputs`
tensor and the `is_sampled_local_regularizer` flag and returns
(sample, mean, covariance, regularizer); `regularizer_type` is the static
tag read by `_build_likelihood`. -/
structure Layer (σ τ μ γ ρ : Type) where
  prop : σ → Bool → Option τ → Bool → σ × μ × γ × ρ
  regularizer_type : RegularizerType

/-- The five parallel lists returned by `DGP_VI.propagate`
(`samples[1:], means, covs, kls, kl_types`). -/
structure PropResult (σ μ γ ρ : Type) where
  samples : List σ
  means : List μ
  covs : List γ
  kls : List ρ
  kl_types : List RegularizerType

/-- Embedding of `DGP_VI.propagate`: thread the input through the layer
sequence, each layer consuming the previous layer's sample; collect samples,
means, covariances, regularizers and regularizer types in layer order,
excluding the initial input (the Python code seeds `samples = [X,]` and
returns `samples[1:]`). -/
def propagate {σ τ μ γ ρ : Type} :
    List (Layer σ τ μ γ ρ) → σ → Bool → Option τ → Bool → PropResult σ μ γ ρ
  | [], _, _, _, _ => ⟨[], [], [], [], []⟩
  | l :: ls, x, fc, si, sr =>
    let r := l.prop x fc si sr
    let rest := propagate ls r.1 fc si sr
    ⟨r.1 :: rest.samples, r.2.1 :: rest.means, r.2.2.1 :: rest.covs,
      r.2.2.2 :: rest.kls, l.regularizer_type :: rest.kl_types⟩

section TensorOps

variable {α : Type} [LinearOrderedField α]

/-- Sum of all entries of a matrix. -/
def matSum (m : Mat α) : α := (m.map List.sum).sum

/-- Sum of all entries of a rank-3 tensor. -/
def t3Sum (t : T3 α) : α := (t.map matSum).sum

/-- Column sums of a matrix (`tf.reduce_sum(_, 0)` for rank 2). -/
def sumAxis0 (m : Mat α) : List α :=
  m.foldr (fun r acc => List.zipWith (· + ·) r acc)
    (List.replicate (m.headD []).length 0)

/-- Column means of a matrix (`tf.reduce_mean(_, 0)` for rank 2): column sums
divided by the number of rows. -/
def meanAxis0 (m : Mat α) : List α :=
  (sumAxis0 m).map (fun v => v / (m.length : α))

/-- The S-by-N matrix whose (s, n) entry is `f s n`. -/
def rangeMatrix (S N : Nat) (f : Nat → Nat → α) : Mat α :=
  (List.range S).map (fun s => (List.range N).map (f s))

/-- Row-major reshape of a flat vector to shape (S, N)
(`tf.reshape(_, [S, N])`): entry (s, n) is element `s*N + n` of the flat
vector. -/
def reshape (S N : Nat) (flat : List α) : Mat α :=
  rangeMatrix S N (fun s n => flat.getD (s * N + n) 0)

/-- Elementwise matrix subtraction (the `-=` on rank-2 tensors). -/
def matSub (a b : Mat α) : Mat α :=
  List.zipWith (fun r₁ r₂ => List.zipWith (· - ·) r₁ r₂) a b

/-- Concatenation of matrices along the last axis (`tf.concat(mats, -1)` for
rank 2): row `i` of the result joins row `i` of every input. -/
def concatLast (ms : List (Mat α)) : Mat α :=
  match ms with
  | [] => []
  | m :: _ => (List.range m.length).map
      (fun i => (ms.map (fun mm => mm.getD i [])).flatten)

/-- Concatenation of rank-3 tensors along the last axis
(`tf.concat(ts, -1)` for rank 3). -/
def t3concatLast (ts : List (T3 α)) : T3 α :=
  match ts with
  | [] => []
  | t :: _ => (List.range t.length).map
      (fun i => concatLast (ts.map (fun tt => tt.getD i [])))

/-- Diagonal of the innermost square matrix (`tf.matrix_diag_part` applied to
the last two axes of a rank-2 block). -/
def matrix_diag_part (m : Mat α) : List α :=
  (List.range m.length).map (fun i => (m.getD i []).getD i 0)

/-- Matrix transposition (used for `tf.transpose(_, [0, 2, 1])` applied per
leading index). -/
def transposeMat (m : Mat α) : Mat α :=
  (List.range (m.headD []).length).map (fun j => m.map (fun r => r.getD j 0))

/-- Embedding of `tf.transpose(tf.matrix_diag_part(cov), [0, 2, 1])` on a
rank-4 covariance of shape (N, Dy, K, K): take the diagonal of every
trailing K-by-K block (giving shape (N, Dy, K)) and swap the last two axes
(giving shape (N, K, Dy)). -/
def cov_diag_extract (c : T4 α) : T3 α :=
  c.map (fun p => transposeMat (p.map matrix_diag_part))

/-- Maximum entry of a list (the stabilizing shift of
`tf.reduce_logsumexp`); the head is used as the fold seed. -/
def maxD (xs : List α) : α := xs.foldl max (xs.headD 0)

/-- Embedding of `tf.reduce_logsumexp` on one row: TensorFlow computes
`log(sum(exp(x - max))) + max`, subtracting the row maximum before
exponentiating for numerical stability. `ex` and `lg` are the
exponential/logarithm maps, kept as parameters so the definition is
executable. -/
def reduce_logsumexp (ex lg : α → α) (xs : List α) : α :=
  lg ((xs.map (fun x => ex (x - maxD xs))).sum) + maxD xs

/-- Embedding of `tf.tile(X, [S, 1])`: stack S copies of the matrix along
axis 0, giving shape (S*N, D); row `s*N + n` is row `n` of `X`. -/
def tile_S (S : Nat) (X : Mat α) : Mat α := (List.replicate S X).flatten

/-- Embedding of `tf.tile(X[:, None, :], [1, K, 1])`: insert a new axis
between batch and features and replicate K times, giving shape (N, K, D);
entry `[n][k]` is row `n` of `X`. -/
def tile_mid (K : Nat) (X : Mat α) : T3 α := X.map (fun r => List.replicate K r)

/-- Embedding of `tf.tile(X[None, :, :], [S, 1, 1])`: a new leading axis with
S replicas of the whole matrix, giving shape (S, N, D). -/
def tile_lead (S : Nat) (X : Mat α) : T3 α := List.replicate S X

/-- Embedding of `tf.concat([A, B], -1)` for two rank-2 tensors. -/
def concatPair (a b : Mat α) : Mat α := List.zipWith (· ++ ·) a b

/-- Embedding of `tf.concat([A, B], -1)` for two rank-3 tensors. -/
def t3concatPair (a b : T3 α) : T3 α := List.zipWith concatPair a b

/-- Elementwise binary operation on rank-3 tensors. -/
def t3map2 (f : α → α → α) (a b : T3 α) : T3 α :=
  List.zipWith (fun x y => List.zipWith (List.zipWith f) x y) a b

/-- Elementwise map on a rank-3 tensor. -/
def t3map (f : α → α) (a : T3 α) : T3 α := a.map (List.map (List.map f))

end TensorOps

/-- Keep the regularizers whose tag equals `t`
(the comprehensions `[kl for kl, t in zip(kls, kl_types) if t is ...]`). -/
def filterRegs {ρ : Type} (t : RegularizerType) (kls : List ρ)
    (ts : List RegularizerType) : List ρ :=
  ((kls.zip ts).filter (fun p => p.2 == t)).map Prod.fst

section ModelDefs

variable {α : Type} [LinearOrderedField α]

/-- Layer view at rank 2 (flat (S*N, D) tensors), as invoked by
`DGP_VI._build_likelihood` and the rank-2 predict paths. -/
abbrev Layer2 (α : Type) := Layer (Mat α) (Mat α) (Mat α) (Mat α) (Mat α)

/-- Layer view at rank 3 with marginal (diagonal) covariances, as invoked by
the multisample predict paths. -/
abbrev Layer3d (α : Type) := Layer (T3 α) (T3 α) (T3 α) (T3 α) (T3 α)

/-- Layer view at rank 3 with full-covariance output over the sample axis
(covariance rank 4, shape (N, Dy, K, K)), as invoked by
`DGP_IWVI._build_likelihood`. -/
abbrev Layer3 (α : Type) := Layer (T3 α) (T3 α) (T3 α) (T4 α) (T3 α)

/-- Likelihood capability `variational_expectations` at rank 2. -/
abbrev VE2 (α : Type) := Mat α → Mat α → Mat α → Mat α

/-- Likelihood capability `variational_expectations` at rank 3. -/
abbrev VE3 (α : Type) := T3 α → T3 α → T3 α → T3 α

/-- Minibatch scaling factor
`tf.cast(self.num_data, float) / tf.cast(tf.shape(self.X)[0], float)`. -/
def mb_scale (nd N : Nat) : α := (nd : α) / (N : α)

/-- Total of a list of GLOBAL regularizers at rank 2
(`tf.reduce_sum(global_kls)`). -/
def globalsSum (ms : List (Mat α)) : α := (ms.map matSum).sum

/-- Total of a list of GLOBAL regularizers at rank 3
(`tf.reduce_sum(global_kls)`). -/
def t3globalsSum (ts : List (T3 α)) : α := (ts.map t3Sum).sum

/-- The propagation performed by `DGP_VI._build_likelihood`: the input is
`X` tiled S times along the flattened leading axis, the side information is
the concatenation of tiled `X` and tiled `Y`, `full_cov=False` and
`is_sampled_local_regularizer=False`. -/
def vi_prop (S : Nat) (X Y : Mat α) (ls : List (Layer2 α)) :
    PropResult (Mat α) (Mat α) (Mat α) (Mat α) :=
  propagate ls (tile_S S X) false (some (concatPair (tile_S S X) (tile_S S Y))) false

/-- The `local_kls` list of `DGP_VI._build_likelihood`. -/
def vi_local_kls (S : Nat) (X Y : Mat α) (ls : List (Layer2 α)) : List (Mat α) :=
  filterRegs .LOCAL (vi_prop S X Y ls).kls (vi_prop S X Y ls).kl_types

/-- The `global_kls` list of `DGP_VI._build_likelihood`. -/
def vi_global_kls (S : Nat) (X Y : Mat α) (ls : List (Layer2 α)) : List (Mat α) :=
  filterRegs .GLOBAL (vi_prop S X Y ls).kls (vi_prop S X Y ls).kl_types

/-- The `var_exp` tensor of `DGP_VI._build_likelihood`: the likelihood's
variational expectations of the last layer's mean/covariance against the
tiled targets, shape (S*N, Dy). -/
def vi_var_exp (S : Nat) (X Y : Mat α) (ls : List (Layer2 α)) (ve : VE2 α) : Mat α :=
  ve ((vi_prop S X Y ls).means.getLastD []) ((vi_prop S X Y ls).covs.getLastD [])
    (tile_S S Y)

/-- The `L_SN` vector: `tf.reduce_sum(var_exp, -1)`, summing over Y columns. -/
def vi_L_SN (S : Nat) (X Y : Mat α) (ls : List (Layer2 α)) (ve : VE2 α) : List α :=
  (vi_var_exp S X Y ls ve).map List.sum

/-- The `L_S_N` matrix of `DGP_VI._build_likelihood`: `L_SN` reshaped to
(S, N), with the summed-and-reshaped LOCAL regularizers subtracted when the
`local_kls` list is non-empty (the `if len(local_kls) > 0` branch). -/
def vi_L_S_N (S : Nat) (X Y : Mat α) (ls : List (Layer2 α)) (ve : VE2 α) : Mat α :=
  if (vi_local_kls S X Y ls).isEmpty then
    reshape S X.length (vi_L_SN S X Y ls ve)
  else
    matSub (reshape S X.length (vi_L_SN S X Y ls ve))
      (reshape S X.length ((concatLast (vi_local_kls S X Y ls)).map List.sum))

/-- The `logp` vector of `DGP_VI._build_likelihood`:
`tf.reduce_mean(L_S_N, 0)`, the per-point average over the sample axis. -/
def vi_logp (S : Nat) (X Y : Mat α) (ls : List (Layer2 α)) (ve : VE2 α) : List α :=
  meanAxis0 (vi_L_S_N S X Y ls ve)

/-- Embedding of `DGP_VI._build_likelihood`:
`tf.reduce_sum(logp) * scale - tf.reduce_sum(global_kls)`. -/
def variational_bound_vi (S nd : Nat) (X Y : Mat α) (ls : List (Layer2 α))
    (ve : VE2 α) : α :=
  (vi_logp S X Y ls ve).sum * mb_scale nd X.length - globalsSum (vi_global_kls S X Y ls)

/-- The propagation performed by `DGP_IWVI._build_likelihood`: the input is
`X` tiled K times along a new axis between batch and features, the side
information is the concatenation of the two tiled tensors, `full_cov=True`
(over the sample axis) and `is_sampled_local_regularizer=True`. -/
def iw_prop (K : Nat) (X Y : Mat α) (ls : List (Layer3 α)) :
    PropResult (T3 α) (T3 α) (T4 α) (T3 α) :=
  propagate ls (tile_mid K X) true (some (t3concatPair (tile_mid K X) (tile_mid K Y))) true

/-- The `local_kls` list of `DGP_IWVI._build_likelihood`. -/
def iw_local_kls (K : Nat) (X Y : Mat α) (ls : List (Layer3 α)) : List (T3 α) :=
  filterRegs .LOCAL (iw_prop K X Y ls).kls (iw_prop K X Y ls).kl_types

/-- The `global_kls` list of `DGP_IWVI._build_likelihood`. -/
def iw_global_kls (K : Nat) (X Y : Mat α) (ls : List (Layer3 α)) : List (T3 α) :=
  filterRegs .GLOBAL (iw_prop K X Y ls).kls (iw_prop K X Y ls).kl_types

/-- The `cov_diag` tensor of `DGP_IWVI._build_likelihood`:
`tf.transpose(tf.matrix_diag_part(covs[-1]), [0, 2, 1])`, shape
(N, Dy, K, K) to (N, K, Dy). -/
def iw_cov_diag (K : Nat) (X Y : Mat α) (ls : List (Layer3 α)) : T3 α :=
  cov_diag_extract ((iw_prop K X Y ls).covs.getLastD [])

/-- The `var_exp` tensor of `DGP_IWVI._build_likelihood`, shape (N, K, Dy). -/
def iw_var_exp (K : Nat) (X Y : Mat α) (ls : List (Layer3 α)) (ve : VE3 α) : T3 α :=
  ve ((iw_prop K X Y ls).means.getLastD []) (iw_cov_diag K X Y ls) (tile_mid K Y)

/-- The `L_NK` matrix of `DGP_IWVI._build_likelihood`:
`tf.reduce_sum(var_exp, 2)` with the summed LOCAL regularizers subtracted
when the `local_kls` list is non-empty. -/
def iw_L_NK (K : Nat) (X Y : Mat α) (ls : List (Layer3 α)) (ve : VE3 α) : Mat α :=
  if (iw_local_kls K X Y ls).isEmpty then
    (iw_var_exp K X Y ls ve).map (fun m => m.map List.sum)
  else
    matSub ((iw_var_exp K X Y ls ve).map (fun m => m.map List.sum))
      ((t3concatLast (iw_local_kls K X Y ls)).map (fun m => m.map List.sum))

/-- The `logp` vector of `DGP_IWVI._build_likelihood`:
`tf.reduce_logsumexp(L_NK, 1) - np.log(self.num_samples)`. -/
def iw_logp (K : Nat) (X Y : Mat α) (ls : List (Layer3 α)) (ve : VE3 α)
    (ex lg : α → α) : List α :=
  (iw_L_NK K X Y ls ve).map (fun r => reduce_logsumexp ex lg r - lg (K : α))

/-- Embedding of `DGP_IWVI._build_likelihood`:
`tf.reduce_sum(logp) * scale - tf.reduce_sum(global_kls)`. -/
def variational_bound_iwvi (K nd : Nat) (X Y : Mat α) (ls : List (Layer3 α))
    (ve : VE3 α) (ex lg : α → α) : α :=
  (iw_logp K X Y ls ve ex lg).sum * mb_scale nd X.length -
    t3globalsSum (iw_global_kls K X Y ls)

end ModelDefs

/-- The data owned by a model instance (the `self` of the Python classes):
inputs, targets, sample multiplicity, total dataset size, the layer stack
(with its typed views at the ranks at which the methods invoke it), the
likelihood capabilities, and the scalar maps used by the objectives and the
predictive sampler. -/
structure DGPState (α : Type) where
  X : Mat α
  Y : Mat α
  num_samples : Nat
  num_data : Nat
  layers2 : List (Layer2 α)
  layers3d : List (Layer3d α)
  layers3f : List (Layer3 α)
  ve2 : VE2 α
  ve3 : VE3 α
  predict_mv : T3 α → T3 α → T3 α × T3 α
  ex : α → α
  lg : α → α
  sqrtf : α → α

/-- The method table of a model class: the Python attribute-lookup semantics
of `class DGP_IWVI(DGP_VI)` is embedded as a record of methods, with
inheritance as record update. `predict_y_samples` takes the standard-normal
draw `z` as an explicit argument (the embedding of `tf.random_normal`). -/
structure DGPClass (α : Type) [LinearOrderedField α] where
  build_likelihood : DGPState α → α
  build_predict : DGPState α → Mat α → Bool → Mat α × Mat α × Mat α
  build_predict_decomp : DGPState α → Mat α → Bool → Mat α × Mat α × List (Mat α)
  predict_f_multisample : DGPState α → Mat α → Nat → T3 α × T3 α
  predict_y_samples : DGPState α → Mat α → Nat → T3 α → T3 α
  propagate2 : DGPState α → Mat α → Bool → Option (Mat α) → Bool →
    PropResult (Mat α) (Mat α) (Mat α) (Mat α)
  propagate3 : DGPState α → T3 α → Bool → Option (T3 α) → Bool →
    PropResult (T3 α) (T3 α) (T3 α) (T3 α)

section ClassDefs

variable {α : Type} [LinearOrderedField α]

/-- The DGP_VI class: `_build_likelihood` is the VI bound;
`_build_predict` and `_build_predict_decomp` propagate and return the last
layer's outputs (resp. every layer's covariance); `predict_f_multisample`
and `predict_y_samples` tile the input S times along a new leading axis,
propagate with default flags, and read off the last layer's moments,
`predict_y_samples` additionally drawing `m + z * v**0.5` through the
likelihood's `predict_mean_and_var`. -/
def DGP_VI_class : DGPClass α where
  build_likelihood := fun st =>
    variational_bound_vi st.num_samples st.num_data st.X st.Y st.layers2 st.ve2
  build_predict := fun st x fc =>
    let r := propagate st.layers2 x fc none false
    (r.samples.getLastD [], r.means.getLastD [], r.covs.getLastD [])
  build_predict_decomp := fun st x fc =>
    let r := propagate st.layers2 x fc none false
    (r.samples.getLastD [], r.means.getLastD [], r.covs)
  predict_f_multisample := fun st x s =>
    let r := propagate st.layers3d (tile_lead s x) false none false
    (r.means.getLastD [], r.covs.getLastD [])
  predict_y_samples := fun st x s z =>
    let r := propagate st.layers3d (tile_lead s x) false none false
    let mv := st.predict_mv (r.means.getLastD []) (r.covs.getLastD [])
    t3map2 (· + ·) mv.1 (t3map2 (· * ·) z (t3map st.sqrtf mv.2))
  propagate2 := fun st => propagate st.layers2
  propagate3 := fun st => propagate st.layers3d

/-- The DGP_IWVI class: it subclasses DGP_VI and its body defines only
`_build_likelihood` (the IWVI bound); every other method is inherited,
which the embedding renders as a record update of `DGP_VI_class`. -/
def DGP_IWVI_class : DGPClass α :=
  { DGP_VI_class with
    build_likelihood := fun st =>
      variational_bound_iwvi st.num_samples st.num_data st.X st.Y st.layers3f
        st.ve3 st.ex st.lg }

end ClassDefs

/-- The fields stored by `DGP_VI.__init__`: the likelihood, `num_data`
(read off as `X.shape[0]`), `num_samples`, the data holders `X` and `Y`,
and the layer list (wrapped unchanged in a `ParamList`). The layer type is
an arbitrary type parameter because `__init__` never inspects the layers. -/
structure DGPVIFields (α L Lik : Type) where
  likelihood : Lik
  num_data : Nat
  num_samples : Nat
  X : Mat α
  Y : Mat α
  layers : List L

/-- Embedding of `DGP_VI.__init__`: it stores its arguments and returns;
its body contains no dimensionality check and no raise, so the embedding
always returns `Except.ok`. The `Except` codomain is the embedding of the
possibility of a Python exception escaping the constructor. -/
def DGP_VI_init {α L Lik : Type} (X Y : Mat α) (layers : List L)
    (likelihood : Lik) (num_samples : Nat) : Except String (DGPVIFields α L Lik) :=
  Except.ok ⟨likelihood, X.length, num_samples, X, Y, layers⟩

/-- Modelled from the spec: the per-layer declared dimensionalities live in
elfi.methods.bo.iwvi.layers, which is not under src/; per the spec a layer
declares an input dimensionality and an output (sample) dimensionality. -/
structure SpecLayer where
  input_dim : Nat
  output_dim : Nat

/-- Modelled from the spec: consecutive layers are dimension-compatible when
each layer's output dimensionality equals the next layer's declared input
dimensionality. -/
def dims_ok : List SpecLayer → Bool
  | [] => true
  | [_] => true
  | a :: b :: t => (a.output_dim == b.input_dim) && dims_ok (b :: t)

/-- The spec's reading of the VI sample reduction, modelled from its words
in section 2 for comparison with the source: a log of an arithmetic average
over the sample axis, i.e. `logp[n] = lg(mean_s ex(L_S_N[s][n]))`, with the
rest of the pipeline unchanged. -/
def variational_bound_vi_logavg {α : Type} [LinearOrderedField α]
    (S nd : Nat) (X Y : Mat α) (ls : List (Layer2 α)) (ve : VE2 α)
    (ex lg : α → α) : α :=
  ((meanAxis0 ((vi_L_S_N S X Y ls ve).map (List.map ex))).map lg).sum *
      mb_scale nd X.length -
    globalsSum (vi_global_kls S X Y ls)

/-- TensorFlow-1.x dtype tags relevant to the objectives' final subtraction
under gpflow's default settings (`gpflow.settings.float_type` is float64). -/
inductive TFDtype
  | float32
  | float64
  deriving DecidableEq, Repr

/-- A scalar tensor together with its TF1 dtype. -/
structure TFScalar (α : Type) where
  dtype : TFDtype
  val : α
  deriving DecidableEq

/-- Embedding of `tf.reduce_sum(global_kls)` (models.py lines 86 and 163)
with TF1 dtype semantics: `tf.reduce_sum` first converts the Python list to
a tensor; an empty list carries no dtype information and is packed as a
float32 empty tensor, so its sum is a float32 zero, while a non-empty list
of regularizer tensors (float64 under gpflow's default float_type) packs
and sums as float64. -/
def tf_reduce_sum_globals {α : Type} [LinearOrderedField α]
    (regs : List (Mat α)) : TFScalar α :=
  match regs with
  | [] => ⟨.float32, 0⟩
  | _ => ⟨.float64, globalsSum regs⟩

/-- The rank-3 analogue of `tf_reduce_sum_globals` for the IWVI objective's
GLOBAL regularizer list (models.py line 163). -/
def tf_reduce_sum_globals_t3 {α : Type} [LinearOrderedField α]
    (regs : List (T3 α)) : TFScalar α :=
  match regs with
  | [] => ⟨.float32, 0⟩
  | _ => ⟨.float64, t3globalsSum regs⟩

/-- TF1 binary subtraction: TF1 performs no implicit dtype promotion, so
`a - b` raises a TypeError at graph-construction time when the operand
dtypes disagree. -/
def tf_sub {α : Type} [LinearOrderedField α] (a b : TFScalar α) :
    Except String (TFScalar α) :=
  if a.dtype = b.dtype then Except.ok ⟨a.dtype, a.val - b.val⟩
  else Except.error "TypeError: dtype mismatch in Sub"

/-- The final line of `DGP_VI._build_likelihood`,
`tf.reduce_sum(logp) * scale - tf.reduce_sum(global_kls)`, with TF1 dtype
semantics made explicit. Every upstream tensor is float64 (lines 80-81 cast
the scale with `gpflow.settings.float_type`, float64 by default, and the
data and regularizer tensors carry that dtype), so dtype tracking matters
exactly at this subtraction, whose right operand packs the possibly-empty
Python list `global_kls`. -/
def variational_bound_vi_dtyped {α : Type} [LinearOrderedField α]
    (S nd : Nat) (X Y : Mat α) (ls : List (Layer2 α)) (ve : VE2 α) :
    Except String (TFScalar α) :=
  tf_sub ⟨.float64, (vi_logp S X Y ls ve).sum * mb_scale nd X.length⟩
    (tf_reduce_sum_globals (vi_global_kls S X Y ls))

/-- The final line of `DGP_IWVI._build_likelihood` with TF1 dtype semantics
made explicit, exactly as in `variational_bound_vi_dtyped`. -/
def variational_bound_iwvi_dtyped {α : Type} [LinearOrderedField α]
    (K nd : Nat) (X Y : Mat α) (ls : List (Layer3 α)) (ve : VE3 α)
    (ex lg : α → α) : Except String (TFScalar α) :=
  tf_sub ⟨.float64, (iw_logp K X Y ls ve ex lg).sum * mb_scale nd X.length⟩
    (tf_reduce_sum_globals_t3 (iw_global_kls K X Y ls))

section Helpers

variable {α : Type} [LinearOrderedField α]

lemma getD_map {β γ : Type} (l : List β) (f : β → γ) (d : γ) (d' : β) {i : Nat}
    (h : i < l.length) : (l.map f).getD i d = f (l.getD i d') := by
  rw [List.getD_eq_getElem _ _ (by simpa using h), List.getD_eq_getElem _ _ h,
    List.getElem_map]

lemma sum_map_range (f : Nat → α) (n : Nat) :
    ((List.range n).map f).sum = ∑ i ∈ Finset.range n, f i := by
  induction n with
  | zero => simp
  | succ n ih => rw [List.range_succ]; simp [ih, Finset.sum_range_succ]

lemma zipWith_add_map_range (r : List α) (N : Nat) (g : Nat → α) (hr : r.length = N) :
    List.zipWith (· + ·) r ((List.range N).map g) =
      (List.range N).map (fun n => r.getD n 0 + g n) := by
  apply List.ext_getElem
  · simp [hr]
  · intro i h1 h2
    have hi : i < r.length := by simp at h2; omega
    simp only [List.getElem_zipWith, List.getElem_map, List.getElem_range]
    rw [List.getD_eq_getElem r 0 hi]

lemma foldr_zipWith_add (N : Nat) (M : Mat α) (hM : ∀ r ∈ M, r.length = N) :
    M.foldr (fun r acc => List.zipWith (· + ·) r acc) (List.replicate N 0) =
      (List.range N).map (fun n => (M.map (fun r => r.getD n 0)).sum) := by
  induction M with
  | nil =>
    apply List.ext_getElem
    · simp
    · intro i h1 h2
      simp [List.getElem_replicate, List.getElem_map]
  | cons r M ih =>
    rw [List.foldr_cons, ih (fun x hx => hM x (List.mem_cons_of_mem _ hx)),
      zipWith_add_map_range r N _ (hM r (List.mem_cons_self _ _))]
    simp [List.map_cons, List.sum_cons]

lemma sumAxis0_rangeMatrix (S N : Nat) (f : Nat → Nat → α) (hS : 1 ≤ S) :
    sumAxis0 (rangeMatrix S N f) =
      (List.range N).map (fun n => ∑ s ∈ Finset.range S, f s n) := by
  obtain ⟨S', rfl⟩ : ∃ S'', S = S'' + 1 := ⟨S - 1, by omega⟩
  have hhead : ((rangeMatrix (S' + 1) N f).headD []).length = N := by
    simp [rangeMatrix, List.range_succ_eq_map]
  have hrows : ∀ r ∈ rangeMatrix (S' + 1) N f, r.length = N := by
    intro r hr
    simp only [rangeMatrix, List.mem_map] at hr
    obtain ⟨s, _, rfl⟩ := hr
    simp
  rw [sumAxis0, hhead, foldr_zipWith_add N _ hrows]
  apply List.map_congr_left
  intro n hn
  rw [List.mem_range] at hn
  have hentry : ∀ s, ((List.range N).map (f s)).getD n 0 = f s n := by
    intro s
    rw [getD_map _ _ _ 0 (by simpa using hn), List.getD_eq_getElem _ _ (by simpa using hn),
      List.getElem_range]
  rw [rangeMatrix, List.map_map]
  have hfun : ((fun r => List.getD r n 0) ∘ fun s => (List.range N).map (f s)) =
      fun s => f s n := by
    funext s
    simp only [Function.comp_apply]
    exact hentry s
  rw [hfun, sum_map_range]

lemma matSub_rangeMatrix (S N : Nat) (f g : Nat → Nat → α) :
    matSub (rangeMatrix S N f) (rangeMatrix S N g) =
      rangeMatrix S N (fun s n => f s n - g s n) := by
  simp [matSub, rangeMatrix, List.zipWith_map, List.zipWith_same]

lemma meanAxis0_rangeMatrix (S N : Nat) (f : Nat → Nat → α) (hS : 1 ≤ S) :
    meanAxis0 (rangeMatrix S N f) =
      (List.range N).map (fun n => (∑ s ∈ Finset.range S, f s n) / (S : α)) := by
  rw [meanAxis0, sumAxis0_rangeMatrix S N f hS, List.map_map]
  simp [rangeMatrix, Function.comp]

lemma sum_meanAxis0_rangeMatrix (S N : Nat) (f : Nat → Nat → α) (hS : 1 ≤ S) :
    (meanAxis0 (rangeMatrix S N f)).sum =
      ∑ n ∈ Finset.range N, (∑ s ∈ Finset.range S, f s n) / (S : α) := by
  rw [meanAxis0_rangeMatrix S N f hS, sum_map_range]

lemma rangeMatrix_getD (S N : Nat) (f : Nat → Nat → α) {s n : Nat}
    (hs : s < S) (hn : n < N) :
    ((rangeMatrix S N f).getD s []).getD n 0 = f s n := by
  have h1 : (rangeMatrix S N f).getD s [] = (List.range N).map (f s) := by
    rw [rangeMatrix, getD_map (List.range S) _ [] 0 (by simpa using hs),
      List.getD_eq_getElem _ _ (by simpa using hs), List.getElem_range]
  rw [h1, getD_map (List.range N) _ 0 0 (by simpa using hn),
    List.getD_eq_getElem _ _ (by simpa using hn), List.getElem_range]

lemma vi_L_S_N_rangeMatrix (S : Nat) (X Y : Mat α) (ls : List (Layer2 α)) (ve : VE2 α) :
    ∃ f : Nat → Nat → α, vi_L_S_N S X Y ls ve = rangeMatrix S X.length f := by
  unfold vi_L_S_N
  cases hloc : (vi_local_kls S X Y ls).isEmpty
  · simp only [hloc, Bool.false_eq_true, if_false]
    exact ⟨_, by rw [reshape, reshape, matSub_rangeMatrix]⟩
  · simp only [hloc, if_true]
    exact ⟨_, rfl⟩

lemma propagate_samples_length {σ τ μ γ ρ : Type} (layers : List (Layer σ τ μ γ ρ))
    (x : σ) (fc : Bool) (si : Option τ) (sr : Bool) :
    (propagate layers x fc si sr).samples.length = layers.length := by
  induction layers generalizing x with
  | nil => rfl
  | cons l ls ih => simp [propagate, ih]

lemma propagate_means_length {σ τ μ γ ρ : Type} (layers : List (Layer σ τ μ γ ρ))
    (x : σ) (fc : Bool) (si : Option τ) (sr : Bool) :
    (propagate layers x fc si sr).means.length = layers.length := by
  induction layers generalizing x with
  | nil => rfl
  | cons l ls ih => simp [propagate, ih]

lemma propagate_covs_length {σ τ μ γ ρ : Type} (layers : List (Layer σ τ μ γ ρ))
    (x : σ) (fc : Bool) (si : Option τ) (sr : Bool) :
    (propagate layers x fc si sr).covs.length = layers.length := by
  induction layers generalizing x with
  | nil => rfl
  | cons l ls ih => simp [propagate, ih]

lemma propagate_kls_length {σ τ μ γ ρ : Type} (layers : List (Layer σ τ μ γ ρ))
    (x : σ) (fc : Bool) (si : Option τ) (sr : Bool) :
    (propagate layers x fc si sr).kls.length = layers.length := by
  induction layers generalizing x with
  | nil => rfl
  | cons l ls ih => simp [propagate, ih]

lemma propagate_kl_types {σ τ μ γ ρ : Type} (layers : List (Layer σ τ μ γ ρ))
    (x : σ) (fc : Bool) (si : Option τ) (sr : Bool) :
    (propagate layers x fc si sr).kl_types = layers.map Layer.regularizer_type := by
  induction layers generalizing x with
  | nil => rfl
  | cons l ls ih => simp [propagate, ih]

lemma propagate_getD {σ τ μ γ ρ : Type} (layers : List (Layer σ τ μ γ ρ)) (x : σ)
    (fc : Bool) (si : Option τ) (sr : Bool) (dσ : σ) (dμ : μ) (dγ : γ) (dρ : ρ) :
    ∀ i, i < layers.length →
      ((propagate layers x fc si sr).samples.getD i dσ =
        ((layers.getD i ⟨fun _ _ _ _ => (dσ, dμ, dγ, dρ), .LOCAL⟩).prop
          ((x :: (propagate layers x fc si sr).samples).getD i dσ) fc si sr).1 ∧
      (propagate layers x fc si sr).means.getD i dμ =
        ((layers.getD i ⟨fun _ _ _ _ => (dσ, dμ, dγ, dρ), .LOCAL⟩).prop
          ((x :: (propagate layers x fc si sr).samples).getD i dσ) fc si sr).2.1 ∧
      (propagate layers x fc si sr).covs.getD i dγ =
        ((layers.getD i ⟨fun _ _ _ _ => (dσ, dμ, dγ, dρ), .LOCAL⟩).prop
          ((x :: (propagate layers x fc si sr).samples).getD i dσ) fc si sr).2.2.1 ∧
      (propagate layers x fc si sr).kls.getD i dρ =
        ((layers.getD i ⟨fun _ _ _ _ => (dσ, dμ, dγ, dρ), .LOCAL⟩).prop
          ((x :: (propagate layers x fc si sr).samples).getD i dσ) fc si sr).2.2.2) := by
  induction layers generalizing x with
  | nil => intro i hi; exact absurd hi (by simp)
  | cons l ls ih =>
    intro i hi
    cases i with
    | zero => exact ⟨rfl, rfl, rfl, rfl⟩
    | succ i =>
      have hi' : i < ls.length := by simpa using hi
      have h := ih ((l.prop x fc si sr).1) i hi'
      simpa [propagate] using h

lemma propagate_congr {σ τ μ γ ρ : Type} {fc sr : Bool}
    {ls ls' : List (Layer σ τ μ γ ρ)}
    (h : List.Forall₂ (fun l l' => l.regularizer_type = l'.regularizer_type ∧
      ∀ x si, l.prop x fc si sr = l'.prop x fc si sr) ls ls') :
    ∀ x si, propagate ls x fc si sr = propagate ls' x fc si sr := by
  induction h with
  | nil => intro x si; rfl
  | cons hl hrest ih =>
    intro x si
    simp only [propagate]
    rw [hl.2 x si, hl.1, ih]

end Helpers

/-- C8: `DGP_VI.propagate` returns per-layer samples, means, covariances,
regularizers and regularizer kinds as equal-length sequences in layer
(construction) order with the initial input excluded; its regularizer-kind
list is exactly the layers' static tags in order; and the entry of every
output list at position `i` is the corresponding component of a single
invocation of layer `i` applied to the previous layer's drawn sample (the
initial input for `i = 0`), not to its mean. -/
theorem claim_C8_propagate_order {σ τ μ γ ρ : Type} (layers : List (Layer σ τ μ γ ρ))
    (x : σ) (fc : Bool) (si : Option τ) (sr : Bool) (dσ : σ) (dμ : μ) (dγ : γ) (dρ : ρ) :
    ((propagate layers x fc si sr).samples.length = layers.length ∧
      (propagate layers x fc si sr).means.length = layers.length ∧
      (propagate layers x fc si sr).covs.length = layers.length ∧
      (propagate layers x fc si sr).kls.length = layers.length) ∧
    (propagate layers x fc si sr).kl_types = layers.map Layer.regularizer_type ∧
    (∀ i, i < layers.length →
      ((propagate layers x fc si sr).samples.getD i dσ =
        ((layers.getD i ⟨fun _ _ _ _ => (dσ, dμ, dγ, dρ), .LOCAL⟩).prop
          ((x :: (propagate layers x fc si sr).samples).getD i dσ) fc si sr).1 ∧
      (propagate layers x fc si sr).means.getD i dμ =
        ((layers.getD i ⟨fun _ _ _ _ => (dσ, dμ, dγ, dρ), .LOCAL⟩).prop
          ((x :: (propagate layers x fc si sr).samples).getD i dσ) fc si sr).2.1 ∧
      (propagate layers x fc si sr).covs.getD i dγ =
        ((layers.getD i ⟨fun _ _ _ _ => (dσ, dμ, dγ, dρ), .LOCAL⟩).prop
          ((x :: (propagate layers x fc si sr).samples).getD i dσ) fc si sr).2.2.1 ∧
      (propagate layers x fc si sr).kls.getD i dρ =
        ((layers.getD i ⟨fun _ _ _ _ => (dσ, dμ, dγ, dρ), .LOCAL⟩).prop
          ((x :: (propagate layers x fc si sr).samples).getD i dσ) fc si sr).2.2.2)) :=
  ⟨⟨propagate_samples_length layers x fc si sr, propagate_means_length layers x fc si sr,
      propagate_covs_length layers x fc si sr, propagate_kls_length layers x fc si sr⟩,
    propagate_kl_types layers x fc si sr,
    propagate_getD layers x fc si sr dσ dμ dγ dρ⟩

/-- C8 witness: the characterization evaluated on a concrete two-layer stack
over ℚ at position 1. -/
theorem claim_C8_witness :
    (propagate [(⟨fun v _ _ _ => (v + 1, v, v, v), .GLOBAL⟩ : Layer ℚ ℚ ℚ ℚ ℚ),
        ⟨fun v _ _ _ => (v * 2, v + 3, v, v), .LOCAL⟩] 0 false none false).samples.getD 1 0 =
      (([(⟨fun v _ _ _ => (v + 1, v, v, v), .GLOBAL⟩ : Layer ℚ ℚ ℚ ℚ ℚ),
        ⟨fun v _ _ _ => (v * 2, v + 3, v, v), .LOCAL⟩].getD 1
          ⟨fun _ _ _ _ => ((0 : ℚ), (0 : ℚ), (0 : ℚ), (0 : ℚ)), .LOCAL⟩).prop
        (((0 : ℚ) :: (propagate [(⟨fun v _ _ _ => (v + 1, v, v, v), .GLOBAL⟩ : Layer ℚ ℚ ℚ ℚ ℚ),
          ⟨fun v _ _ _ => (v * 2, v + 3, v, v), .LOCAL⟩] 0 false none false).samples).getD 1 0)
        false none false).1 :=
  ((claim_C8_propagate_order _ 0 false none false 0 0 0 0).2.2 1 (by decide)).1

/-- C10: `DGP_IWVI` overrides only the training objective; its predictive
methods (`_build_predict`, `_build_predict_decomp`, `predict_f_multisample`,
`predict_y_samples`) and its `propagate` are inherited unchanged from
`DGP_VI`, so on identical state, inputs, flags and random draws the two
classes produce identical predictive outputs. -/
theorem claim_C10_iwvi_inherits_predict {α : Type} [LinearOrderedField α]
    (st : DGPState α) (x : Mat α) (x3 : T3 α) (fc fc2 sr2 : Bool) (s : Nat)
    (z : T3 α) (si2 : Option (Mat α)) (si3 : Option (T3 α)) :
    DGP_IWVI_class.build_predict st x fc = DGP_VI_class.build_predict st x fc ∧
    DGP_IWVI_class.build_predict_decomp st x fc =
      DGP_VI_class.build_predict_decomp st x fc ∧
    DGP_IWVI_class.predict_f_multisample st x s =
      DGP_VI_class.predict_f_multisample st x s ∧
    DGP_IWVI_class.predict_y_samples st x s z =
      DGP_VI_class.predict_y_samples st x s z ∧
    DGP_IWVI_class.propagate2 st x fc2 si2 sr2 =
      DGP_VI_class.propagate2 st x fc2 si2 sr2 ∧
    DGP_IWVI_class.propagate3 st x3 fc2 si3 sr2 =
      DGP_VI_class.propagate3 st x3 fc2 si3 sr2 :=
  ⟨rfl, rfl, rfl, rfl, rfl, rfl⟩

/-- C7 counterexample: it is false that a declared-dimensionality mismatch
between consecutive layers makes stack construction fail. `DGP_VI.__init__`
contains no shape check: it succeeds on a concretely mismatched layer list
(output dimensionality 2 followed by declared input dimensionality 3). -/
theorem claim_C7_counterexample :
    ¬ (∀ (X Y : Mat ℚ) (ls : List SpecLayer) (lik : Unit) (S : Nat),
        dims_ok ls = false →
        ∃ e, DGP_VI_init X Y ls lik S = Except.error e) := by
  intro h
  obtain ⟨e, he⟩ := h [] [] [⟨1, 2⟩, ⟨3, 1⟩] () 1 (by decide)
  simp [DGP_VI_init] at he

/-- C7 amended: `DGP_VI.__init__` performs no cross-layer shape validation
at all; for every input it succeeds and stores the layer list unchanged
(together with the likelihood, `num_data = X.shape[0]`, `num_samples`, `X`
and `Y`), so a dimensionality mismatch is not detected at
stack-construction time. -/
theorem claim_C7_init_unvalidated {α L Lik : Type} (X Y : Mat α)
    (layers : List L) (lik : Lik) (S : Nat) :
    DGP_VI_init X Y layers lik S = Except.ok ⟨lik, X.length, S, X, Y, layers⟩ :=
  rfl

section TilingHelpers

variable {α : Type} [LinearOrderedField α]

lemma tile_S_length (S : Nat) (X : Mat α) : (tile_S S X).length = S * X.length := by
  simp [tile_S, List.length_flatten, List.map_replicate, List.sum_replicate, smul_eq_mul]

lemma tile_S_getD (S : Nat) (X : Mat α) {s n : Nat} (hs : s < S) (hn : n < X.length) :
    (tile_S S X).getD (s * X.length + n) [] = X.getD n [] := by
  induction S generalizing s with
  | zero => exact absurd hs (Nat.not_lt_zero s)
  | succ S ih =>
    have hsplit : tile_S (S + 1) X = X ++ tile_S S X := by
      simp [tile_S, List.replicate_succ]
    rw [hsplit]
    cases s with
    | zero => simpa using List.getD_append X (tile_S S X) [] n hn
    | succ s =>
      have hidx : (s + 1) * X.length + n = X.length + (s * X.length + n) := by ring
      rw [hidx, List.getD_append_right X (tile_S S X) [] _ (Nat.le_add_right _ _),
        Nat.add_sub_cancel_left]
      exact ih (by omega)

lemma tile_mid_getD (K : Nat) (X : Mat α) {n : Nat} (hn : n < X.length) :
    (tile_mid K X).getD n [] = List.replicate K (X.getD n []) := by
  rw [tile_mid, getD_map X _ [] [] hn]

lemma filterRegs_eq_nil_of_forall {ρ : Type} (t t' : RegularizerType) (hne : t' ≠ t)
    (kls : List ρ) (ts : List RegularizerType) (h : ∀ u ∈ ts, u = t') :
    filterRegs t kls ts = [] := by
  rw [filterRegs]
  have hfil : (kls.zip ts).filter (fun p => p.2 == t) = [] := by
    rw [List.filter_eq_nil_iff]
    intro p hp
    have h2 : p.2 ∈ ts := (List.of_mem_zip (by simpa using hp)).2
    simp [h p.2 h2, hne]
  rw [hfil]
  rfl

end TilingHelpers

/-- C4: the two objectives use distinct tiling and propagation
configurations. The VI tiling stacks S copies of the batch into a flat
leading axis of length S*N whose entry `s*N + n` is data point `n` (sample
and data index vary independently); the IWVI tiling keeps the batch axis
and pairs each of the N data points with its own bank of K copies. The VI
bound depends on the layers only through their behavior at
`full_cov = false` and `is_sampled_local_regularizer = false`, and the IWVI
bound only through their behavior at `full_cov = true` and
`is_sampled_local_regularizer = true`. -/
theorem claim_C4_tiling_and_flags {α : Type} [LinearOrderedField α]
    (S K nd : Nat) (X Y : Mat α)
    (ls2 ls2' : List (Layer2 α)) (ve2 : VE2 α)
    (ls3 ls3' : List (Layer3 α)) (ve3 : VE3 α) (ex lg : α → α) :
    ((tile_S S X).length = S * X.length ∧
      ∀ s n, s < S → n < X.length →
        (tile_S S X).getD (s * X.length + n) [] = X.getD n []) ∧
    ((tile_mid K X).length = X.length ∧
      ∀ n, n < X.length →
        (tile_mid K X).getD n [] = List.replicate K (X.getD n [])) ∧
    (List.Forall₂ (fun l l' : Layer2 α =>
        l.regularizer_type = l'.regularizer_type ∧
        ∀ x si, l.prop x false si false = l'.prop x false si false) ls2 ls2' →
      variational_bound_vi S nd X Y ls2 ve2 = variational_bound_vi S nd X Y ls2' ve2) ∧
    (List.Forall₂ (fun l l' : Layer3 α =>
        l.regularizer_type = l'.regularizer_type ∧
        ∀ x si, l.prop x true si true = l'.prop x true si true) ls3 ls3' →
      variational_bound_iwvi K nd X Y ls3 ve3 ex lg =
        variational_bound_iwvi K nd X Y ls3' ve3 ex lg) := by
  refine ⟨⟨tile_S_length S X, fun s n hs hn => tile_S_getD S X hs hn⟩,
    ⟨by simp [tile_mid], fun n hn => tile_mid_getD K X hn⟩, ?_, ?_⟩
  · intro h
    have hp : vi_prop S X Y ls2 = vi_prop S X Y ls2' :=
      propagate_congr h (tile_S S X) (some (concatPair (tile_S S X) (tile_S S Y)))
    simp only [variational_bound_vi, vi_logp, vi_L_S_N, vi_L_SN, vi_var_exp,
      vi_local_kls, vi_global_kls, hp]
  · intro h
    have hp : iw_prop K X Y ls3 = iw_prop K X Y ls3' :=
      propagate_congr h (tile_mid K X) (some (t3concatPair (tile_mid K X) (tile_mid K Y)))
    simp only [variational_bound_iwvi, iw_logp, iw_L_NK, iw_var_exp, iw_cov_diag,
      iw_local_kls, iw_global_kls, hp]

/-- C4 witness: the VI tiling evaluated on a concrete two-point batch over ℚ
at sample index 1, data index 1. -/
theorem claim_C4_witness :
    (tile_S 2 [[(1 : ℚ)], [2]]).getD (1 * 2 + 1) [] = [[(1 : ℚ)], [2]].getD 1 [] :=
  ((claim_C4_tiling_and_flags 2 2 1 [[(1 : ℚ)], [2]] [[0], [0]] [] [] (fun _ _ _ => [])
      [] [] (fun _ _ _ => []) id id).1.2) 1 1 (by decide) (by decide)

/-- C5: in both objectives only the summed per-point data term carries the
minibatch-correction factor `num_data / N`; the GLOBAL-regularizer sum is
subtracted exactly once, unscaled (the data term and the regularizer sum do
not depend on `num_data` at all — they take no `num_data` argument), and
doubling `num_data` doubles the data-term contribution while leaving the
GLOBAL contribution unchanged. -/
theorem claim_C5_minibatch_scaling {α : Type} [LinearOrderedField α]
    (S K nd : Nat) (X Y : Mat α) (ls2 : List (Layer2 α)) (ve2 : VE2 α)
    (ls3 : List (Layer3 α)) (ve3 : VE3 α) (ex lg : α → α) :
    (variational_bound_vi S nd X Y ls2 ve2 =
      mb_scale nd X.length * (vi_logp S X Y ls2 ve2).sum -
        globalsSum (vi_global_kls S X Y ls2)) ∧
    (variational_bound_vi S (2 * nd) X Y ls2 ve2 +
        globalsSum (vi_global_kls S X Y ls2) =
      2 * (variational_bound_vi S nd X Y ls2 ve2 +
        globalsSum (vi_global_kls S X Y ls2))) ∧
    (variational_bound_iwvi K nd X Y ls3 ve3 ex lg =
      mb_scale nd X.length * (iw_logp K X Y ls3 ve3 ex lg).sum -
        t3globalsSum (iw_global_kls K X Y ls3)) ∧
    (variational_bound_iwvi K (2 * nd) X Y ls3 ve3 ex lg +
        t3globalsSum (iw_global_kls K X Y ls3) =
      2 * (variational_bound_iwvi K nd X Y ls3 ve3 ex lg +
        t3globalsSum (iw_global_kls K X Y ls3))) := by
  refine ⟨by rw [variational_bound_vi, mul_comm], ?_,
    by rw [variational_bound_iwvi, mul_comm], ?_⟩
  · simp only [variational_bound_vi, mb_scale]
    push_cast
    ring
  · simp only [variational_bound_iwvi, mb_scale]
    push_cast
    ring

/-- C9 (code bug): the program errors on an empty GLOBAL regularizer list.
On a stack whose only layer declares a LOCAL regularizer (so `global_kls`
is empty), the final subtraction of both objectives,
`... - tf.reduce_sum(global_kls)` (models.py lines 86 and 163), raises a
dtype TypeError under TF1 semantics with gpflow's default float64 settings,
because the empty Python list packs as a float32 zero and TF1 does not
promote dtypes — against the claim and the spec's stated intent. The code
itself follows that intent for the guarded empty-LOCAL case: on a stack
whose only layer declares a GLOBAL regularizer the empty LOCAL list is
skipped and the dtyped objective succeeds with the field-level value. -/
theorem claim_C9_empty_global_is_error :
    variational_bound_vi_dtyped 1 1 [[(0 : ℚ)]] [[0]]
        [⟨fun v _ _ _ => (v, v, v, [[0]]), .LOCAL⟩] (fun _ _ _ => [[2]]) =
      Except.error "TypeError: dtype mismatch in Sub" ∧
    variational_bound_iwvi_dtyped 1 1 [[(0 : ℚ)]] [[0]]
        [⟨fun v _ _ _ => (v, v, [[[[0]]]], [[[0]]]), .LOCAL⟩]
        (fun _ _ _ => [[[0]]]) id id =
      Except.error "TypeError: dtype mismatch in Sub" ∧
    (vi_local_kls 1 [[(0 : ℚ)]] [[0]]
        [⟨fun v _ _ _ => (v, v, v, []), .GLOBAL⟩]).isEmpty = true ∧
    variational_bound_vi_dtyped 1 1 [[(0 : ℚ)]] [[0]]
        [⟨fun v _ _ _ => (v, v, v, []), .GLOBAL⟩] (fun _ _ _ => [[2]]) =
      Except.ok ⟨.float64, variational_bound_vi 1 1 [[(0 : ℚ)]] [[0]]
        [⟨fun v _ _ _ => (v, v, v, []), .GLOBAL⟩] (fun _ _ _ => [[2]])⟩ :=
  ⟨rfl, rfl, rfl, rfl⟩

/-- C1: the VI objective reduces the per-(sample, point) log-density matrix
`L_S_N` of shape (S, N) over the sample axis (axis 0) by a linear arithmetic
average of the per-sample log-densities — entrywise `(1/S) * Σ_s L[s][n]`,
with no logarithm applied around the average — and then sums the per-point
averages over the N data points (scaled by `num_data / N`, minus the GLOBAL
regularizers). -/
theorem claim_C1_vi_linear_average {α : Type} [LinearOrderedField α]
    (S nd : Nat) (X Y : Mat α) (ls : List (Layer2 α)) (ve : VE2 α) (hS : 1 ≤ S) :
    variational_bound_vi S nd X Y ls ve =
      ((nd : α) / (X.length : α)) *
        (∑ n ∈ Finset.range X.length,
          (∑ s ∈ Finset.range S,
            ((vi_L_S_N S X Y ls ve).getD s []).getD n 0) / (S : α)) -
      globalsSum (vi_global_kls S X Y ls) := by
  obtain ⟨f, hf⟩ := vi_L_S_N_rangeMatrix S X Y ls ve
  rw [variational_bound_vi, vi_logp, hf, sum_meanAxis0_rangeMatrix S X.length f hS]
  have hsum : ∑ n ∈ Finset.range X.length,
      (∑ s ∈ Finset.range S, ((rangeMatrix S X.length f).getD s []).getD n 0) / (S : α) =
      ∑ n ∈ Finset.range X.length, (∑ s ∈ Finset.range S, f s n) / (S : α) := by
    apply Finset.sum_congr rfl
    intro n hn
    rw [Finset.mem_range] at hn
    congr 1
    apply Finset.sum_congr rfl
    intro s hs
    rw [Finset.mem_range] at hs
    exact rangeMatrix_getD S X.length f hs hn
  rw [hsum, mb_scale]
  ring

/-- C1 witness: the average-of-logs form of the VI bound evaluated on a
concrete empty stack over ℚ with S = 1. -/
theorem claim_C1_witness :
    variational_bound_vi 1 1 [[(0 : ℚ)]] [[0]] [] (fun _ _ _ => [[2]]) =
      (((1 : Nat) : ℚ) / (([[(0 : ℚ)]].length : Nat) : ℚ)) *
        (∑ n ∈ Finset.range [[(0 : ℚ)]].length,
          (∑ s ∈ Finset.range 1,
            ((vi_L_S_N 1 [[(0 : ℚ)]] [[0]] [] (fun _ _ _ => [[2]])).getD s []).getD n 0) /
            ((1 : Nat) : ℚ)) -
      globalsSum (vi_global_kls 1 [[(0 : ℚ)]] [[0]] []) :=
  claim_C1_vi_linear_average 1 1 [[(0 : ℚ)]] [[0]] [] (fun _ _ _ => [[2]]) (by decide)

/-- C3 amended: the VI objective's reduction over the sample axis is a linear
average of per-sample log-densities, not a log of an average; equivalently
the bound is the arithmetic mean over the S samples of the per-sample
scaled data terms, minus the GLOBAL regularizers. -/
theorem claim_C3_amended_mean_over_samples {α : Type} [LinearOrderedField α]
    (S nd : Nat) (X Y : Mat α) (ls : List (Layer2 α)) (ve : VE2 α) (hS : 1 ≤ S) :
    variational_bound_vi S nd X Y ls ve =
      (∑ s ∈ Finset.range S, mb_scale nd X.length *
        (∑ n ∈ Finset.range X.length,
          ((vi_L_S_N S X Y ls ve).getD s []).getD n 0)) / (S : α) -
      globalsSum (vi_global_kls S X Y ls) := by
  obtain ⟨f, hf⟩ := vi_L_S_N_rangeMatrix S X Y ls ve
  rw [variational_bound_vi, vi_logp, hf, sum_meanAxis0_rangeMatrix S X.length f hS]
  have hR : ∑ s ∈ Finset.range S, mb_scale (α := α) nd X.length *
      (∑ n ∈ Finset.range X.length, ((rangeMatrix S X.length f).getD s []).getD n 0) =
      mb_scale (α := α) nd X.length *
        ∑ s ∈ Finset.range S, ∑ n ∈ Finset.range X.length, f s n := by
    rw [← Finset.mul_sum]
    congr 1
    apply Finset.sum_congr rfl
    intro s hs
    rw [Finset.mem_range] at hs
    apply Finset.sum_congr rfl
    intro n hn
    rw [Finset.mem_range] at hn
    exact rangeMatrix_getD S X.length f hs hn
  rw [hR, Finset.sum_comm, ← Finset.sum_div, mb_scale]
  ring

/-- C3 amended witness: the per-sample mean form evaluated on a concrete
empty stack over ℚ with S = 1. -/
theorem claim_C3_witness :
    variational_bound_vi 1 1 [[(0 : ℚ)]] [[0]] [] (fun _ _ _ => [[3]]) =
      (∑ s ∈ Finset.range 1, mb_scale 1 [[(0 : ℚ)]].length *
        (∑ n ∈ Finset.range [[(0 : ℚ)]].length,
          ((vi_L_S_N 1 [[(0 : ℚ)]] [[0]] [] (fun _ _ _ => [[3]])).getD s []).getD n 0)) /
        ((1 : Nat) : ℚ) -
      globalsSum (vi_global_kls 1 [[(0 : ℚ)]] [[0]] []) :=
  claim_C3_amended_mean_over_samples 1 1 [[(0 : ℚ)]] [[0]] [] (fun _ _ _ => [[3]]) (by decide)

/-- C3 counterexample: the VI reduction is not a log of an average. On a
concrete one-layer identity stack over ℝ with S = 2, N = 1 and per-sample
log-densities 0 and log 4, the source's VI bound (the linear average of
logs, log 2) differs from the spec-described log-of-average bound
(log (5/2)). -/
theorem claim_C3_counterexample :
    variational_bound_vi 2 1 [[(0 : ℝ)]] [[0]]
        [⟨fun v _ _ _ => (v, v, v, []), .GLOBAL⟩]
        (fun _ _ _ => [[0], [Real.log 4]]) ≠
      variational_bound_vi_logavg 2 1 [[(0 : ℝ)]] [[0]]
        [⟨fun v _ _ _ => (v, v, v, []), .GLOBAL⟩]
        (fun _ _ _ => [[0], [Real.log 4]]) Real.exp Real.log := by
  have h1 : variational_bound_vi 2 1 [[(0 : ℝ)]] [[0]]
      [⟨fun v _ _ _ => (v, v, v, []), .GLOBAL⟩]
      (fun _ _ _ => [[0], [Real.log 4]]) = Real.log 4 / 2 := by
    simp [variational_bound_vi, vi_logp, vi_L_S_N, vi_local_kls, vi_global_kls, vi_prop,
      propagate, tile_S, concatPair, filterRegs, vi_L_SN, vi_var_exp, reshape, rangeMatrix,
      meanAxis0, sumAxis0, matSum, globalsSum, mb_scale, List.range_succ]
  have h2 : variational_bound_vi_logavg 2 1 [[(0 : ℝ)]] [[0]]
      [⟨fun v _ _ _ => (v, v, v, []), .GLOBAL⟩]
      (fun _ _ _ => [[0], [Real.log 4]]) Real.exp Real.log = Real.log (5 / 2) := by
    simp [variational_bound_vi_logavg, vi_L_S_N, vi_local_kls, vi_global_kls, vi_prop,
      propagate, tile_S, concatPair, filterRegs, vi_L_SN, vi_var_exp, reshape, rangeMatrix,
      meanAxis0, sumAxis0, matSum, globalsSum, mb_scale, List.range_succ,
      Real.exp_zero, Real.exp_log (show (0:ℝ) < 4 by norm_num)]
    norm_num
  rw [h1, h2]
  have h4 : Real.log 4 = 2 * Real.log 2 := by
    rw [show (4 : ℝ) = 2 ^ 2 by norm_num, Real.log_pow]
    push_cast
    ring
  have hlt : Real.log 2 < Real.log (5 / 2) := Real.log_lt_log (by norm_num) (by norm_num)
  rw [h4]
  intro heq
  rw [show 2 * Real.log 2 / 2 = Real.log 2 by ring] at heq
  exact absurd heq (ne_of_lt hlt)

section LogSumExpHelpers

lemma sum_map_exp_pos (r : List ℝ) (hr : r ≠ []) : 0 < (r.map Real.exp).sum := by
  cases r with
  | nil => exact absurd rfl hr
  | cons a t =>
    simp only [List.map_cons, List.sum_cons]
    have ht : 0 ≤ (t.map Real.exp).sum := by
      apply List.sum_nonneg
      intro x hx
      obtain ⟨y, _, rfl⟩ := List.mem_map.mp hx
      exact (Real.exp_pos y).le
    linarith [Real.exp_pos a]

lemma reduce_logsumexp_real (r : List ℝ) (hr : r ≠ []) :
    reduce_logsumexp Real.exp Real.log r = Real.log ((r.map Real.exp).sum) := by
  rw [reduce_logsumexp]
  have hmap : r.map (fun x => Real.exp (x - maxD r)) =
      r.map (fun x => Real.exp x * Real.exp (-(maxD r))) := by
    apply List.map_congr_left
    intro x _
    rw [Real.exp_sub, Real.exp_neg, div_eq_mul_inv]
  rw [hmap, List.sum_map_mul_right,
    Real.log_mul (ne_of_gt (sum_map_exp_pos r hr)) (ne_of_gt (Real.exp_pos _)),
    Real.log_exp]
  ring

lemma logsumexp_sub_logK (r : List ℝ) (K : Nat) (hr : r ≠ []) (hK : 1 ≤ K) :
    reduce_logsumexp Real.exp Real.log r - Real.log (K : ℝ) =
      Real.log ((r.map Real.exp).sum / (K : ℝ)) := by
  rw [reduce_logsumexp_real r hr,
    Real.log_div (ne_of_gt (sum_map_exp_pos r hr)) (Nat.cast_ne_zero.mpr (by omega))]

end LogSumExpHelpers

/-- C2: the IWVI objective reduces the per-(point, sample) matrix `L_NK` of
shape (N, K) over the sample axis by the numerically stable (max-shifted)
log-sum-exp followed by subtraction of log K; per point this equals
`log((1/K) * Σ_k exp(L[n][k]))`, the log of the mean importance weight, and
the bound sums these over the points (scaled by `num_data / N`, minus the
GLOBAL regularizers). -/
theorem claim_C2_iwvi_logsumexp (K nd : Nat) (X Y : Mat ℝ) (ls : List (Layer3 ℝ))
    (ve : VE3 ℝ) (hK : 1 ≤ K) (hrows : ∀ r ∈ iw_L_NK K X Y ls ve, r ≠ []) :
    variational_bound_iwvi K nd X Y ls ve Real.exp Real.log =
      ((nd : ℝ) / (X.length : ℝ)) *
        ((iw_L_NK K X Y ls ve).map
          (fun r => Real.log ((r.map Real.exp).sum / (K : ℝ)))).sum -
      t3globalsSum (iw_global_kls K X Y ls) := by
  rw [variational_bound_iwvi, iw_logp]
  have hmap : (iw_L_NK K X Y ls ve).map
      (fun r => reduce_logsumexp Real.exp Real.log r - Real.log (K : ℝ)) =
      (iw_L_NK K X Y ls ve).map
        (fun r => Real.log ((r.map Real.exp).sum / (K : ℝ))) := by
    apply List.map_congr_left
    intro r hr
    exact logsumexp_sub_logK r K (hrows r hr) hK
  rw [hmap, mb_scale]
  ring

/-- C2 witness: the log-mean-exp form of the IWVI bound evaluated on a
concrete empty stack over ℝ with K = 1. -/
theorem claim_C2_witness :
    variational_bound_iwvi 1 1 [[(0 : ℝ)]] [[0]] [] (fun _ _ _ => [[[0]]])
        Real.exp Real.log =
      (((1 : Nat) : ℝ) / (([[(0 : ℝ)]].length : Nat) : ℝ)) *
        ((iw_L_NK 1 [[(0 : ℝ)]] [[0]] [] (fun _ _ _ => [[[0]]])).map
          (fun r => Real.log ((r.map Real.exp).sum / (((1 : Nat)) : ℝ)))).sum -
      t3globalsSum (iw_global_kls 1 [[(0 : ℝ)]] [[0]] []) :=
  claim_C2_iwvi_logsumexp 1 1 [[(0 : ℝ)]] [[0]] [] (fun _ _ _ => [[[0]]])
    (by decide)
    (by
      intro r hr
      have hrl : r = [0] := by
        simpa [iw_L_NK, iw_local_kls, iw_prop, propagate, filterRegs, iw_var_exp,
          iw_cov_diag, tile_mid] using hr
      rw [hrl]
      simp)

/-- C6 counterexample: the quantity passed to the likelihood's
variational-expectation operation is not the per-point K-by-K sample
coupling matrix. Two one-layer stacks over ℚ whose final covariances are
per-point K-by-K blocks differing only in their cross-sample (off-diagonal)
entries produce the identical tensor at the likelihood call: the coupling
is discarded before the Likelihood sees it. -/
theorem claim_C6_counterexample :
    iw_var_exp 2 [[(0 : ℚ)]] [[0]]
        [⟨fun v _ _ _ => (v, v, [[[[1, 5], [5, 1]]]], []), .GLOBAL⟩] (fun _ c _ => c) =
      iw_var_exp 2 [[(0 : ℚ)]] [[0]]
        [⟨fun v _ _ _ => (v, v, [[[[1, 7], [7, 1]]]], []), .GLOBAL⟩] (fun _ c _ => c) ∧
    ([[[[(1 : ℚ), 5], [5, 1]]]] : T4 ℚ) ≠ [[[[1, 7], [7, 1]]]] := by
  exact ⟨by decide, by decide⟩

/-- C6 amended: `DGP_IWVI._build_likelihood` passes to the likelihood, with
the final mean, the transposed diagonal part of the final covariance — the
per-(point, sample) variances of shape (N, K, Dy), i.e. entry `[n][k][j]`
of the passed tensor is the diagonal entry `cov[n][j][k][k]` of the
per-point K-by-K sample-coupling block, whose off-diagonal (cross-sample)
entries are discarded; cross-point terms are absent from that covariance by
construction. -/
theorem claim_C6_diag_of_coupling {α : Type} [LinearOrderedField α]
    (K : Nat) (X Y : Mat α) (ls : List (Layer3 α)) (ve : VE3 α) (C : T4 α)
    (n j k : Nat) (hC : C = (iw_prop K X Y ls).covs.getLastD [])
    (hn : n < C.length) (hj : j < (C.getD n []).length)
    (hsq : ∀ m ∈ C.getD n [], m.length = K) (hk : k < K) :
    iw_var_exp K X Y ls ve =
      ve ((iw_prop K X Y ls).means.getLastD []) (cov_diag_extract C) (tile_mid K Y) ∧
    (((cov_diag_extract C).getD n []).getD k []).getD j 0 =
      (((C.getD n []).getD j []).getD k []).getD k 0 := by
  constructor
  · rw [hC]
    rfl
  · have hMdef : (cov_diag_extract C).getD n [] =
        transposeMat ((C.getD n []).map matrix_diag_part) := by
      rw [cov_diag_extract, getD_map C _ [] [] hn]
    have hhead : ((((C.getD n []).map matrix_diag_part)).headD []).length = K := by
      cases hPc : C.getD n [] with
      | nil => rw [hPc] at hj; exact absurd hj (by simp)
      | cons p0 P' =>
        have hp0 : p0.length = K := hsq p0 (by rw [hPc]; exact List.mem_cons_self _ _)
        simp [matrix_diag_part, hp0]
    have e1 : (transposeMat ((C.getD n []).map matrix_diag_part)).getD k [] =
        ((C.getD n []).map matrix_diag_part).map (fun r => r.getD k 0) := by
      rw [transposeMat, hhead, getD_map (List.range K) _ [] 0 (by simpa using hk),
        List.getD_eq_getElem _ _ (by simpa using hk), List.getElem_range]
    rw [hMdef, e1,
      getD_map ((C.getD n []).map matrix_diag_part) _ 0 [] (by simpa using hj),
      getD_map (C.getD n []) matrix_diag_part [] [] hj]
    have hmem : (C.getD n []).getD j [] ∈ C.getD n [] := by
      rw [List.getD_eq_getElem _ _ hj]
      exact List.getElem_mem hj
    have hmlen : ((C.getD n []).getD j []).length = K := hsq _ hmem
    have hrk : (List.range K).getD k 0 = k := by
      rw [List.getD_eq_getElem _ _ (by simpa using hk), List.getElem_range]
    rw [matrix_diag_part, hmlen,
      getD_map (List.range K) _ 0 0 (by simpa using hk), hrk]

/-- C6 witness: the diagonal-extraction characterization evaluated on a
concrete one-layer stack over ℚ with K = 2 at n = 0, j = 0, k = 1. -/
theorem claim_C6_witness :
    iw_var_exp 2 [[(0 : ℚ)]] [[0]]
        [⟨fun v _ _ _ => (v, v, [[[[1, 5], [5, 1]]]], []), .LOCAL⟩] (fun _ c _ => c) =
      (fun _ c _ => c : VE3 ℚ)
        ((iw_prop 2 [[(0 : ℚ)]] [[0]]
          [⟨fun v _ _ _ => (v, v, [[[[1, 5], [5, 1]]]], []), .LOCAL⟩]).means.getLastD [])
        (cov_diag_extract ([[[[(1 : ℚ), 5], [5, 1]]]] : T4 ℚ))
        (tile_mid 2 [[(0 : ℚ)]]) ∧
    (((cov_diag_extract ([[[[(1 : ℚ), 5], [5, 1]]]] : T4 ℚ)).getD 0 []).getD 1 []).getD 0 0 =
      (((([[[[(1 : ℚ), 5], [5, 1]]]] : T4 ℚ).getD 0 []).getD 0 []).getD 1 []).getD 1 0 :=
  claim_C6_diag_of_coupling 2 [[(0 : ℚ)]] [[0]]
    [⟨fun v _ _ _ => (v, v, [[[[1, 5], [5, 1]]]], []), .LOCAL⟩] (fun _ c _ => c)
    [[[[(1 : ℚ), 5], [5, 1]]]] 0 0 1 (by decide) (by decide) (by decide) (by decide)
    (by decide)
